import Mathlib

/-!
Verification development for the LiveRecorder recording-orchestration engine
(src/src/liverecorder/live_recorder.py and the timeout callback wiring in
src/src/liverecorder/gui.py).

The Python code is shallowly embedded: the module-level dict
recording : Dict[str, Tuple[StreamIO, FileOutput]] becomes an association
list with Python-dict semantics, the relevant methods of LiveRecorder and
Kwai become pure state-passing functions, and the external library calls
(open_stream, FileOutput.open, StreamRunner.run, hashlib.md5,
urllib.parse.unquote) become boolean outcome parameters or abstract
function parameters.  All definitions are executable.
-/

set_option linter.unusedVariables false

/-! ## Python dict model

The module-level registry recording is a Python dict keyed by stream URL.
A dict is embedded as an association list: assignment d[k] = v overwrites
in place when the key exists and appends otherwise, del d[k] removes the
key, membership is key lookup.  Python dict keys are unique, which the
boolean predicate keysNodup captures. -/

/-- Python dict assignment d[k] = v: overwrite in place, else append. -/
def dinsert {α : Type} (k : String) (v : α) : List (String × α) → List (String × α)
  | [] => [(k, v)]
  | (k1, v1) :: t => if k1 = k then (k, v) :: t else (k1, v1) :: dinsert k v t

/-- Python dict lookup d.get(k). -/
def dlookup {α : Type} (k : String) : List (String × α) → Option α
  | [] => none
  | (k1, v) :: t => if k1 = k then some v else dlookup k t

/-- Python membership test k in d. -/
def dmem {α : Type} (k : String) (d : List (String × α)) : Bool :=
  (dlookup k d).isSome

/-- Python deletion del d[k] (dict keys are unique, so removing every
occurrence of the key is dict deletion). -/
def derase {α : Type} (k : String) (d : List (String × α)) : List (String × α) :=
  d.filter (fun kv => !(kv.1 = k))

/-- The dict invariant: keys occur at most once. -/
def keysNodup {α : Type} : List (String × α) → Bool
  | [] => true
  | (k, _) :: t => !(dmem k t) && keysNodup t

theorem dlookup_dinsert_self {α : Type} (k : String) (v : α) (d : List (String × α)) :
    dlookup k (dinsert k v d) = some v := by
  induction d with
  | nil => simp [dinsert, dlookup]
  | cons kv t ih =>
    obtain ⟨k1, v1⟩ := kv
    by_cases h : k1 = k
    · simp [dinsert, dlookup, h]
    · simp [dinsert, dlookup, h, ih]

theorem dlookup_dinsert_ne {α : Type} (k k2 : String) (v : α) (d : List (String × α))
    (hne : k2 ≠ k) : dlookup k2 (dinsert k v d) = dlookup k2 d := by
  induction d with
  | nil => simp [dinsert, dlookup, hne.symm]
  | cons kv t ih =>
    obtain ⟨k1, v1⟩ := kv
    by_cases h : k1 = k
    · simp [dinsert, dlookup, h, hne.symm]
    · simp [dinsert, dlookup, h, ih]

theorem dmem_dinsert_self {α : Type} (k : String) (v : α) (d : List (String × α)) :
    dmem k (dinsert k v d) = true := by
  simp [dmem, dlookup_dinsert_self]

theorem dmem_dinsert_ne {α : Type} (k k2 : String) (v : α) (d : List (String × α))
    (hne : k2 ≠ k) : dmem k2 (dinsert k v d) = dmem k2 d := by
  simp [dmem, dlookup_dinsert_ne k k2 v d hne]

theorem dmem_derase_self {α : Type} (k : String) (d : List (String × α)) :
    dmem k (derase k d) = false := by
  induction d with
  | nil => simp [derase, dmem, dlookup]
  | cons kv t ih =>
    obtain ⟨k1, v1⟩ := kv
    by_cases h : k1 = k
    · simpa [derase, List.filter_cons, h] using ih
    · simpa [derase, List.filter_cons, dmem, dlookup, h] using ih

theorem dmem_derase_mono {α : Type} (k k2 : String) (d : List (String × α))
    (h : dmem k2 (derase k d) = true) : dmem k2 d = true := by
  induction d with
  | nil => simp [derase, dmem, dlookup] at h
  | cons kv t ih =>
    obtain ⟨k1, v1⟩ := kv
    by_cases h2 : k1 = k2
    · simp [dmem, dlookup, h2]
    · by_cases hk : k1 = k
      · have h3 : dmem k2 (derase k t) = true := by
          simpa [derase, List.filter_cons, hk] using h
        simpa [dmem, dlookup, h2] using ih h3
      · have h3 : dmem k2 (derase k t) = true := by
          simpa [derase, List.filter_cons, hk, dmem, dlookup, h2] using h
        simpa [dmem, dlookup, h2] using ih h3

theorem keysNodup_dinsert {α : Type} (k : String) (v : α) (d : List (String × α))
    (h : keysNodup d = true) : keysNodup (dinsert k v d) = true := by
  induction d with
  | nil => simp [dinsert, keysNodup, dmem, dlookup]
  | cons kv t ih =>
    obtain ⟨k1, v1⟩ := kv
    simp only [keysNodup, Bool.and_eq_true, Bool.not_eq_true'] at h
    by_cases hk : k1 = k
    · subst hk
      simp [dinsert, keysNodup, h.1, h.2]
    · simp only [dinsert, hk, if_false, keysNodup, Bool.and_eq_true, Bool.not_eq_true']
      refine ⟨?_, ih h.2⟩
      rw [dmem_dinsert_ne k k1 v t hk]
      exact h.1

theorem keysNodup_derase {α : Type} (k : String) (d : List (String × α))
    (h : keysNodup d = true) : keysNodup (derase k d) = true := by
  induction d with
  | nil => simp [derase, keysNodup]
  | cons kv t ih =>
    obtain ⟨k1, v1⟩ := kv
    simp only [keysNodup, Bool.and_eq_true, Bool.not_eq_true'] at h
    by_cases hk : k1 = k
    · simpa [derase, List.filter_cons, hk] using ih h.2
    · have hd : derase k ((k1, v1) :: t) = (k1, v1) :: derase k t := by
        simp [derase, List.filter_cons, hk]
      rw [hd]
      simp only [keysNodup, Bool.and_eq_true, Bool.not_eq_true']
      refine ⟨?_, by simpa [derase] using ih h.2⟩
      cases hmem : dmem k1 (derase k t) with
      | false => rfl
      | true => exact absurd (dmem_derase_mono k k1 t hmem) (by simp [h.1])

/-! ## Kwai.create_signature (live_recorder.py lines 766 to 793)

The method parses query_str on ampersands, merges the resulting dict with
post_dict (post entries override), sorts the merged items by key,
concatenates key equals percent-decoded value for every key outside the
excluded signature fields, appends the shared secret 382700b563f4 and
returns the md5 hexdigest.  hashlib md5 hexdigest and urllib unquote are
external calls, embedded as abstract function parameters. -/

/-- Python str.split on one separator character; splitting the empty
string yields a single empty chunk, like Python. -/
def splitChar (sep : Char) : List Char → List Char → List (List Char)
  | [], acc => [acc.reverse]
  | c :: cs, acc =>
    if c = sep then acc.reverse :: splitChar sep cs [] else splitChar sep cs (c :: acc)

/-- Python pair.split(sep, 1): cut at the first occurrence, none when the
separator is absent. -/
def splitFirst (sep : Char) : List Char → Option (List Char × List Char)
  | [] => none
  | c :: cs =>
    if c = sep then some ([], cs)
    else (splitFirst sep cs).map (fun p => (c :: p.1, p.2))

/-- One step of the query parsing loop: a pair with an equals sign
contributes key and value, a pair without one maps to the empty value. -/
def parsePair (pair : List Char) : String × String :=
  match splitFirst '=' pair with
  | some (k, v) => (String.mk k, String.mk v)
  | none => (String.mk pair, "")

/-- The loop building query_obj from the split of query_str on
ampersands, with dict assignment semantics. -/
def parseQuery (query_str : String) : List (String × String) :=
  (splitChar '&' query_str.data []).foldl
    (fun d pair => let kv := parsePair pair; dinsert kv.1 kv.2 d) []

/-- Python dict merge of query_obj and post_dict by double star
unpacking: post entries override query entries. -/
def mergeParams (query_obj post_dict : List (String × String)) : List (String × String) :=
  post_dict.foldl (fun d kv => dinsert kv.1 kv.2 d) query_obj

/-- Python string comparison: lexicographic over code points. -/
def charsLe : List Char → List Char → Bool
  | [], _ => true
  | _ :: _, [] => false
  | a :: as, b :: bs =>
    if a.val < b.val then true else if b.val < a.val then false else charsLe as bs

def strLe (a b : String) : Bool := charsLe a.data b.data

/-- Stable insertion step of the sort below. -/
def insertPair (p : String × String) : List (String × String) → List (String × String)
  | [] => [p]
  | q :: t => if strLe p.1 q.1 then p :: q :: t else q :: insertPair p t

/-- sorted(map_object.items(), key of each item the first component):
stable insertion sort on the key. -/
def sortPairs : List (String × String) → List (String × String)
  | [] => []
  | p :: t => insertPair p (sortPairs t)

/-- The three signature fields skipped during concatenation. -/
def excludedKeys : List String := ["sig", "__NS_sig3", "__NStokensig"]

/-- The accumulation loop over the sorted items: url_string grows by key,
equals sign and percent-decoded value, skipping excluded keys. -/
def urlStringFold (unquote : String → String) (items : List (String × String)) : String :=
  items.foldl
    (fun acc kv =>
      if excludedKeys.contains kv.1 then acc
      else acc ++ (kv.1 ++ "=" ++ unquote kv.2)) ""

/-- Kwai.create_signature embedded from the source. -/
def Kwai.create_signature (md5hex unquote : String → String)
    (query_str : String) (post_dict : List (String × String)) : String :=
  let query_obj := parseQuery query_str
  let map_object := mergeParams query_obj post_dict
  let sorted_items := sortPairs map_object
  let url_string := urlStringFold unquote sorted_items ++ "382700b563f4"
  md5hex url_string

/-- The canonical string as the specification words it: merge the query
and post parameters, sort the merged keys ascending, keep every key
outside the excluded set, concatenate key equals decoded value and append
the shared secret. -/
def canonicalSignedString (unquote : String → String)
    (query_str : String) (post_dict : List (String × String)) : String :=
  let merged := mergeParams (parseQuery query_str) post_dict
  let kept := (sortPairs merged).filter (fun kv => !(excludedKeys.contains kv.1))
  String.join (kept.map (fun kv => kv.1 ++ "=" ++ unquote kv.2)) ++ "382700b563f4"

theorem strFoldlAppend (l : List String) (s : String) :
    l.foldl (· ++ ·) s = s ++ l.foldl (· ++ ·) "" := by
  induction l generalizing s with
  | nil => simp [List.foldl, String.append_empty]
  | cons a t ih =>
    simp only [List.foldl]
    rw [ih (s ++ a), ih ("" ++ a), String.empty_append, String.append_assoc]

theorem stringJoin_cons (a : String) (l : List String) :
    String.join (a :: l) = a ++ String.join l := by
  simp only [String.join, List.foldl]
  rw [strFoldlAppend l ("" ++ a), String.empty_append]

theorem urlStringFold_go (unquote : String → String)
    (items : List (String × String)) (acc : String) :
    items.foldl
      (fun acc kv =>
        if excludedKeys.contains kv.1 then acc
        else acc ++ (kv.1 ++ "=" ++ unquote kv.2)) acc
    = acc ++ String.join
        ((items.filter (fun kv => !(excludedKeys.contains kv.1))).map
          (fun kv => kv.1 ++ "=" ++ unquote kv.2)) := by
  induction items generalizing acc with
  | nil => simp [List.foldl, String.join, String.append_empty]
  | cons kv t ih =>
    by_cases h : excludedKeys.contains kv.1
    · have hf : (kv :: t).filter (fun kv => !(excludedKeys.contains kv.1))
          = t.filter (fun kv => !(excludedKeys.contains kv.1)) := by
        rw [List.filter_cons, h]
        exact if_neg (by decide)
      rw [List.foldl_cons, if_pos h, ih, hf]
    · have hb : excludedKeys.contains kv.1 = false := by
        cases hc : excludedKeys.contains kv.1
        · rfl
        · exact absurd hc h
      have hf : (kv :: t).filter (fun kv => !(excludedKeys.contains kv.1))
          = kv :: t.filter (fun kv => !(excludedKeys.contains kv.1)) := by
        rw [List.filter_cons, hb]
        exact if_pos (by decide)
      rw [List.foldl_cons, if_neg h, ih, hf, List.map_cons, stringJoin_cons,
        String.append_assoc]

/-- C2: Kwai.create_signature returns the md5 hexdigest of the canonical
string: merged query and post parameters, keys sorted ascending, the
excluded signature fields dropped, values percent-decoded, shared secret
appended; and the routine is deterministic in its inputs. -/
theorem create_signature_canonical (md5hex unquote : String → String)
    (query_str : String) (post_dict : List (String × String)) :
    Kwai.create_signature md5hex unquote query_str post_dict
      = md5hex (canonicalSignedString unquote query_str post_dict)
    ∧ Kwai.create_signature md5hex unquote query_str post_dict
      = Kwai.create_signature md5hex unquote query_str post_dict := by
  refine ⟨?_, rfl⟩
  simp only [Kwai.create_signature, canonicalSignedString, urlStringFold]
  rw [urlStringFold_go, String.empty_append]

example :
    Kwai.create_signature id id ("b=2&a=1&sig=xyz") [("c", "3")]
      = "a=1b=2c=3382700b563f4" := by decide

/-! ## Duration to timeout conversion (live_recorder.py lines 473 to 500)

The code reads: if duration and duration_unit, then seconds, minutes and
hours scale by 1, 60 and 3600, any other unit gives None; the else branch
gives None.  The timer is armed under if timeout, which is Python
truthiness again.  Python truthiness of a possibly absent number and of a
possibly absent string is embedded explicitly. -/

/-- Python truthiness of an optional number: None and 0 are falsy. -/
def pyTruthyInt : Option Int → Bool
  | none => false
  | some d => !(d = 0)

/-- Python truthiness of an optional string: None and the empty string
are falsy. -/
def pyTruthyStr : Option String → Bool
  | none => false
  | some s => !(s = "")

/-- The duration to timeout conversion of run_record. -/
def computeTimeout (duration : Option Int) (duration_unit : Option String) : Option Int :=
  if pyTruthyInt duration && pyTruthyStr duration_unit then
    match duration, duration_unit with
    | some d, some u =>
      if u = "seconds" then some d
      else if u = "minutes" then some (d * 60)
      else if u = "hours" then some (d * 3600)
      else none
    | _, _ => none
  else none

/-- The guard if timeout at line 500: a timer is armed only when the
computed timeout is truthy. -/
def timerArmedFor (timeout : Option Int) : Bool := pyTruthyInt timeout

/-- C10 counterexample: with duration 0 and unit seconds, the code
computes no timeout and arms no timer, while the claim promises an armed
timer whose timeout equals the duration. -/
theorem computeTimeout_zero_seconds_cex :
    computeTimeout (some 0) (some ("seconds")) = none
    ∧ timerArmedFor (computeTimeout (some 0) (some ("seconds"))) = false := by
  constructor <;> rfl

/-- C10 amended: for truthy (nonzero) duration and unit seconds, minutes
or hours, the timeout is the duration scaled by 1, 60 or 3600 and the
timer is armed; for every other unit, and whenever duration or unit is
absent or falsy (zero duration, empty unit), the timeout is None and no
timer is armed, so capture proceeds without a duration limit. -/
theorem computeTimeout_spec (d : Int) (u : String)
    (hd : d ≠ 0)
    (hu : u ≠ "seconds") (hu2 : u ≠ "minutes") (hu3 : u ≠ "hours") :
    (computeTimeout (some d) (some ("seconds")) = some d
      ∧ timerArmedFor (computeTimeout (some d) (some ("seconds"))) = true)
    ∧ (computeTimeout (some d) (some ("minutes")) = some (d * 60)
      ∧ timerArmedFor (computeTimeout (some d) (some ("minutes"))) = true)
    ∧ (computeTimeout (some d) (some ("hours")) = some (d * 3600)
      ∧ timerArmedFor (computeTimeout (some d) (some ("hours"))) = true)
    ∧ (u ≠ "" → computeTimeout (some d) (some u) = none)
    ∧ computeTimeout none (some u) = none
    ∧ computeTimeout (some d) none = none
    ∧ computeTimeout (some 0) (some u) = none
    ∧ computeTimeout (some d) (some ("")) = none
    ∧ timerArmedFor none = false := by
  have hsec : pyTruthyStr (some ("seconds")) = true := by decide
  have hmin : pyTruthyStr (some ("minutes")) = true := by decide
  have hhr : pyTruthyStr (some ("hours")) = true := by decide
  have htd : pyTruthyInt (some d) = true := by
    simp [pyTruthyInt, hd]
  refine ⟨⟨?_, ?_⟩, ⟨?_, ?_⟩, ⟨?_, ?_⟩, ?_, ?_, ?_, ?_, ?_, ?_⟩
  · simp [computeTimeout, htd, hsec]
  · simp [computeTimeout, timerArmedFor, htd, hsec, pyTruthyInt, hd]
  · simp [computeTimeout, htd, hmin]
  · simp [computeTimeout, timerArmedFor, htd, hmin, pyTruthyInt, hd,
      mul_ne_zero hd (by decide : (60 : Int) ≠ 0)]
  · simp [computeTimeout, htd, hhr]
  · simp [computeTimeout, timerArmedFor, htd, hhr, pyTruthyInt, hd,
      mul_ne_zero hd (by decide : (3600 : Int) ≠ 0)]
  · intro hne
    simp [computeTimeout, htd, pyTruthyStr, hne, hu, hu2, hu3]
  · simp [computeTimeout, pyTruthyInt]
  · simp [computeTimeout, pyTruthyStr]
  · simp [computeTimeout, pyTruthyInt]
  · simp [computeTimeout, pyTruthyStr]
  · rfl

/-- C10 witness: the amended conversion evaluated at duration 2 and the
unknown unit days. -/
theorem computeTimeout_spec_witness :
    computeTimeout (some 2) (some ("seconds")) = some 2
    ∧ computeTimeout (some 2) (some ("days")) = none := by
  have h := computeTimeout_spec 2 ("days") (by decide) (by decide) (by decide) (by decide)
  exact ⟨h.1.1, h.2.2.2.1 (by decide)⟩

/-! ## Capture handles and the active-recordings registry

A registry entry stores the pair stream file descriptor and FileOutput;
what the claims observe on handles is whether they have been closed, so a
handle is embedded as its pair of closed flags. -/

/-- The pair StreamIO and FileOutput held per URL, reduced to closed
flags. -/
structure Handle where
  fdClosed : Bool
  outClosed : Bool
deriving DecidableEq, Repr

/-- The module-level dict recording of live_recorder.py line 41. -/
abbrev Registry : Type := List (String × Handle)

/-! ## LiveRecorder.run_record (live_recorder.py lines 436 to 592)

The method is embedded as one state transformer over the registry plus
the local handle flags.  Exit causes and the two external unknowns are
inputs: whether open_stream and output.open raise, how StreamRunner.run
ends (normal end of stream, an exception, KeyboardInterrupt), whether the
armed duration timer fired, whether the external StreamRunner closed the
stream descriptor itself, and whether the external FileOutput object
exposes a closed attribute (the close guard in the finally block reads
getattr of output and closed with default True, so an absent attribute
makes the guard skip the close). -/

/-- How the StreamRunner.run call ends inside the inner try block. -/
inductive RunOutcome
  | normalEnd
  | raisesErr
  | kbInterrupt
deriving DecidableEq, Repr

structure RRInput where
  url : String
  hasStream : Bool
  duration : Option Int
  durationUnit : Option String
  openStreamOk : Bool
  openOutputOk : Bool
  runOutcome : RunOutcome
  timerFires : Bool
  outHasClosedAttr : Bool
  runnerClosesFd : Bool

structure RRState where
  registry : Registry
  fdOpened : Bool
  fdClosed : Bool
  outOpened : Bool
  outClosed : Bool
  timerWasArmed : Bool
  timerCancelled : Bool
deriving DecidableEq, Repr

/-- getattr(x, closed, True): the default True is returned when the
attribute is absent. -/
def getattrClosed (hasAttr : Bool) (closed : Bool) : Bool :=
  if hasAttr then closed else true

/-- The finally block at lines 539 to 563: close the output when
output_opened and the close guard passes, close the stream descriptor
when its guard passes (StreamIO always has a closed attribute), then
remove the registry entry for the URL when present.  The timer cancel of
line 530 already ran in the inner finally, so the armed flag arrives here
as the cancelled flag. -/
def rrFinally (inp : RRInput) (reg : Registry)
    (fdClosed outOpened outClosed armed : Bool) : RRState :=
  let outClosed2 :=
    if outOpened && !(getattrClosed inp.outHasClosedAttr outClosed) then true else outClosed
  let fdClosed2 :=
    if !(getattrClosed true fdClosed) then true else fdClosed
  let reg2 := if dmem inp.url reg then derase inp.url reg else reg
  { registry := reg2, fdOpened := true, fdClosed := fdClosed2,
    outOpened := outOpened, outClosed := outClosed2,
    timerWasArmed := armed, timerCancelled := armed }

/-- LiveRecorder.run_record embedded from the source.  Paths: no stream
returns untouched; open_stream raising lands in the outer except, which
closes and deletes a registry entry for the URL when one exists (lines
570 to 592); otherwise the handle is registered, the timeout computed,
and every termination of the inner block (output.open failure, normal
end, exception, KeyboardInterrupt, timer fired) runs the inner timer
cancel and the finally cleanup. -/
def LiveRecorder.run_record (inp : RRInput) (reg0 : Registry) : RRState :=
  if !inp.hasStream then
    { registry := reg0, fdOpened := false, fdClosed := false,
      outOpened := false, outClosed := false,
      timerWasArmed := false, timerCancelled := false }
  else if !inp.openStreamOk then
    let reg2 := if dmem inp.url reg0 then derase inp.url reg0 else reg0
    { registry := reg2, fdOpened := false, fdClosed := false,
      outOpened := false, outClosed := false,
      timerWasArmed := false, timerCancelled := false }
  else
    let reg1 := dinsert inp.url { fdClosed := false, outClosed := false } reg0
    let timeout := computeTimeout inp.duration inp.durationUnit
    if !inp.openOutputOk then
      rrFinally inp reg1 false false false false
    else
      let armed := timerArmedFor timeout
      let fdAfterRun := (armed && inp.timerFires) || inp.runnerClosesFd
      rrFinally inp reg1 fdAfterRun true false armed

/-! ## LiveRecorder.stream_writer (live_recorder.py lines 698 to 725)

The try block opens the stream, opens the output, registers the handle
under the URL and runs the StreamRunner; every exception is caught and
logged; the finally block closes the output when output_opened is set and
nothing else: the registry entry is never removed and the stream
descriptor is never closed by this method. -/

structure SWInput where
  url : String
  openStreamOk : Bool
  openOutputOk : Bool
  runOk : Bool
  runnerClosesFd : Bool

structure SWState where
  registry : Registry
  fdOpened : Bool
  fdClosed : Bool
  outOpened : Bool
  outClosed : Bool
  returnedTrue : Bool
deriving DecidableEq, Repr

/-- LiveRecorder.stream_writer embedded from the source. -/
def LiveRecorder.stream_writer (inp : SWInput) (reg0 : Registry) : SWState :=
  if !inp.openStreamOk then
    { registry := reg0, fdOpened := false, fdClosed := false,
      outOpened := false, outClosed := false, returnedTrue := false }
  else if !inp.openOutputOk then
    { registry := reg0, fdOpened := true, fdClosed := false,
      outOpened := false, outClosed := false, returnedTrue := false }
  else
    let reg1 := dinsert inp.url { fdClosed := false, outClosed := false } reg0
    { registry := reg1, fdOpened := true, fdClosed := inp.runnerClosesFd,
      outOpened := true, outClosed := true, returnedTrue := inp.runOk }

theorem rrFinally_dmem (inp : RRInput) (reg : Registry)
    (fc oo oc a : Bool) :
    dmem inp.url (rrFinally inp reg fc oo oc a).registry = false := by
  show dmem inp.url (if dmem inp.url reg then derase inp.url reg else reg) = false
  by_cases h : dmem inp.url reg
  · simp [h, dmem_derase_self]
  · rw [if_neg h]
    exact Bool.eq_false_iff.mpr h

theorem sw_out_closed (sw : SWInput) (reg1 : Registry) :
    (LiveRecorder.stream_writer sw reg1).outOpened = true →
    (LiveRecorder.stream_writer sw reg1).outClosed = true := by
  cases h1 : sw.openStreamOk with
  | false => intro h; exact absurd h (by simp [LiveRecorder.stream_writer, h1])
  | true =>
    cases h2 : sw.openOutputOk with
    | false => intro h; exact absurd h (by simp [LiveRecorder.stream_writer, h1, h2])
    | true => intro _; simp [LiveRecorder.stream_writer, h1, h2]

theorem sw_registry_kept (sw : SWInput) (reg1 : Registry) :
    sw.openStreamOk = true → sw.openOutputOk = true →
    dmem sw.url (LiveRecorder.stream_writer sw reg1).registry = true := by
  intro h1 h2
  simp [LiveRecorder.stream_writer, h1, h2, dmem_dinsert_self]

/-- C1 counterexample: a fully successful stream_writer call leaves the
registry entry for the URL in place and never closes the stream file
descriptor, and a fully successful run_record call on a FileOutput that
exposes no closed attribute leaves the opened output handle unclosed
(the guard getattr of output and closed with default True skips the
close). -/
theorem capture_release_cex :
    (LiveRecorder.stream_writer ⟨"u", true, true, true, false⟩ []).registry
      = [("u", ⟨false, false⟩)]
    ∧ (LiveRecorder.stream_writer ⟨"u", true, true, true, false⟩ []).fdClosed = false
    ∧ (LiveRecorder.run_record
        ⟨"u", true, none, none, true, true, RunOutcome.normalEnd, false, false, false⟩
        []).outOpened = true
    ∧ (LiveRecorder.run_record
        ⟨"u", true, none, none, true, true, RunOutcome.normalEnd, false, false, false⟩
        []).outClosed = false := by
  exact ⟨rfl, rfl, rfl, rfl⟩

/-- C1 amended: on every exit path of run_record after a stream was
obtained, the armed duration timer (if any) is cancelled and the registry
entry for the URL is removed before the call returns; the stream
descriptor is closed whenever the stream was opened, and the output
handle is closed whenever it was opened and its close guard can observe
the closed attribute.  stream_writer, in contrast, closes only the output
handle on exit: its registry entry for the URL survives the call. -/
theorem capture_release_spec (inp : RRInput) (reg0 : Registry)
    (sw : SWInput) (reg1 : Registry)
    (hs : inp.hasStream = true) :
    ((LiveRecorder.run_record inp reg0).timerWasArmed = true →
      (LiveRecorder.run_record inp reg0).timerCancelled = true)
    ∧ dmem inp.url (LiveRecorder.run_record inp reg0).registry = false
    ∧ (inp.openStreamOk = true → (LiveRecorder.run_record inp reg0).fdClosed = true)
    ∧ ((LiveRecorder.run_record inp reg0).outOpened = true →
        inp.outHasClosedAttr = true →
        (LiveRecorder.run_record inp reg0).outClosed = true)
    ∧ ((LiveRecorder.stream_writer sw reg1).outOpened = true →
        (LiveRecorder.stream_writer sw reg1).outClosed = true)
    ∧ (sw.openStreamOk = true → sw.openOutputOk = true →
        dmem sw.url (LiveRecorder.stream_writer sw reg1).registry = true) := by
  cases hos : inp.openStreamOk with
  | false =>
    have hrr : LiveRecorder.run_record inp reg0 =
        { registry := if dmem inp.url reg0 then derase inp.url reg0 else reg0,
          fdOpened := false, fdClosed := false, outOpened := false,
          outClosed := false, timerWasArmed := false, timerCancelled := false } := by
      simp [LiveRecorder.run_record, hs, hos]
    refine ⟨?_, ?_, ?_, ?_, ?_, ?_⟩
    · rw [hrr]; intro h; exact h
    · rw [hrr]
      by_cases hm : dmem inp.url reg0
      · simp [hm, dmem_derase_self]
      · show dmem inp.url (if dmem inp.url reg0 then derase inp.url reg0 else reg0) = false
        rw [if_neg hm]
        exact Bool.eq_false_iff.mpr hm
    · intro h; exact absurd h (by simp [hos])
    · rw [hrr]; intro h; exact absurd h (by simp)
    · exact sw_out_closed sw reg1
    · exact sw_registry_kept sw reg1
  | true =>
    cases hoo : inp.openOutputOk with
    | false =>
      have hrr : LiveRecorder.run_record inp reg0 =
          rrFinally inp (dinsert inp.url { fdClosed := false, outClosed := false } reg0)
            false false false false := by
        simp [LiveRecorder.run_record, hs, hos, hoo]
      refine ⟨?_, ?_, ?_, ?_, sw_out_closed sw reg1, sw_registry_kept sw reg1⟩
      · rw [hrr]; intro h; exact h
      · rw [hrr]; exact rrFinally_dmem _ _ _ _ _ _
      · intro _
        rw [hrr]
        rfl
      · rw [hrr]; intro h; exact absurd h (by simp [rrFinally, getattrClosed])
    | true =>
      set armed := timerArmedFor (computeTimeout inp.duration inp.durationUnit) with ha
      set fdAfter := (armed && inp.timerFires) || inp.runnerClosesFd with hf
      have hrr : LiveRecorder.run_record inp reg0 =
          rrFinally inp (dinsert inp.url { fdClosed := false, outClosed := false } reg0)
            fdAfter true false armed := by
        simp [LiveRecorder.run_record, hs, hos, hoo, ha, hf]
      refine ⟨?_, ?_, ?_, ?_, sw_out_closed sw reg1, sw_registry_kept sw reg1⟩
      · rw [hrr]; intro h; exact h
      · rw [hrr]; exact rrFinally_dmem _ _ _ _ _ _
      · intro _
        rw [hrr]
        show (if !(getattrClosed true fdAfter) then true else fdAfter) = true
        cases fdAfter <;> rfl
      · rw [hrr]
        intro _ hattr
        show (if true && !(getattrClosed inp.outHasClosedAttr false) then true else false) = true
        rw [hattr]
        rfl

/-- C1 witness: the amended release property evaluated on a concrete
timed capture (duration 2 seconds, timer fired, closed attribute present)
and a concrete stream_writer call. -/
theorem capture_release_spec_witness :
    (RRInput.hasStream
        ⟨"u", true, some 2, some ("seconds"), true, true, RunOutcome.normalEnd,
          true, true, true⟩ = true)
    ∧ (((LiveRecorder.run_record
          ⟨"u", true, some 2, some ("seconds"), true, true, RunOutcome.normalEnd,
            true, true, true⟩ []).timerWasArmed = true →
        (LiveRecorder.run_record
          ⟨"u", true, some 2, some ("seconds"), true, true, RunOutcome.normalEnd,
            true, true, true⟩ []).timerCancelled = true)
      ∧ dmem ("u")
          (LiveRecorder.run_record
            ⟨"u", true, some 2, some ("seconds"), true, true, RunOutcome.normalEnd,
              true, true, true⟩ []).registry = false
      ∧ ((RRInput.openStreamOk
            ⟨"u", true, some 2, some ("seconds"), true, true, RunOutcome.normalEnd,
              true, true, true⟩ = true) →
          (LiveRecorder.run_record
            ⟨"u", true, some 2, some ("seconds"), true, true, RunOutcome.normalEnd,
              true, true, true⟩ []).fdClosed = true)
      ∧ ((LiveRecorder.run_record
            ⟨"u", true, some 2, some ("seconds"), true, true, RunOutcome.normalEnd,
              true, true, true⟩ []).outOpened = true →
          (RRInput.outHasClosedAttr
            ⟨"u", true, some 2, some ("seconds"), true, true, RunOutcome.normalEnd,
              true, true, true⟩ = true) →
          (LiveRecorder.run_record
            ⟨"u", true, some 2, some ("seconds"), true, true, RunOutcome.normalEnd,
              true, true, true⟩ []).outClosed = true)
      ∧ ((LiveRecorder.stream_writer ⟨"v", true, true, true, true⟩ []).outOpened = true →
          (LiveRecorder.stream_writer ⟨"v", true, true, true, true⟩ []).outClosed = true)
      ∧ ((SWInput.openStreamOk ⟨"v", true, true, true, true⟩ = true) →
          (SWInput.openOutputOk ⟨"v", true, true, true, true⟩ = true) →
          dmem ("v") (LiveRecorder.stream_writer ⟨"v", true, true, true, true⟩ []).registry
            = true)) :=
  ⟨rfl,
    capture_release_spec
      ⟨"u", true, some 2, some ("seconds"), true, true, RunOutcome.normalEnd,
        true, true, true⟩ []
      ⟨"v", true, true, true, true⟩ [] rfl⟩

/-! ## Registration of a capture handle (lines 470 and 706)

Both run_record and stream_writer register with the plain dict
assignment recording[url] = (stream_fd, output), which is dinsert: there
is no insert-if-absent guard, so a second registration under the same URL
replaces the first. -/

/-- C3 counterexample: registering a second handle under an already
registered URL is not rejected: the dict assignment replaces the existing
entry, so the registry no longer holds the first handle. -/
theorem register_overwrite_cex :
    dinsert ("u") (Handle.mk true false) [(("u"), Handle.mk false false)]
      = [(("u"), Handle.mk true false)]
    ∧ dlookup ("u") (dinsert ("u") (Handle.mk true false)
        [(("u"), Handle.mk false false)]) ≠ some (Handle.mk false false) := by
  exact ⟨rfl, by decide⟩

/-- C3 amended: a second registration for an already registered URL is
not rejected but replaces the existing entry (last writer wins); the
registry nevertheless holds at most one handle per URL at all times,
because dict assignment and deletion preserve key uniqueness and lookups
under other URLs are untouched. -/
theorem register_unique_spec (u v : String) (h : Handle) (r : Registry)
    (hnd : keysNodup r = true) (hne : v ≠ u) :
    dlookup u (dinsert u h r) = some h
    ∧ keysNodup (dinsert u h r) = true
    ∧ keysNodup (derase u r) = true
    ∧ dlookup v (dinsert u h r) = dlookup v r := by
  exact ⟨dlookup_dinsert_self u h r, keysNodup_dinsert u h r hnd,
    keysNodup_derase u r hnd, dlookup_dinsert_ne u v h r hne⟩

/-- C3 witness: the amended registration property on a concrete
registry. -/
theorem register_unique_spec_witness :
    keysNodup [(("a"), Handle.mk false false)] = true
    ∧ dlookup ("u") (dinsert ("u") (Handle.mk false false)
        [(("a"), Handle.mk false false)]) = some (Handle.mk false false)
    ∧ keysNodup (dinsert ("u") (Handle.mk false false)
        [(("a"), Handle.mk false false)]) = true :=
  have h := register_unique_spec ("u") ("a") (Handle.mk false false)
    [(("a"), Handle.mk false false)] (by decide) (by decide)
  ⟨by decide, h.1, h.2.1⟩

/-! ## LiveRecorder.stop (lines 245 to 296) and the duration timeout chain

stop returns at once unless running; otherwise it clears the running
flag, cancels every task and empties the task list, and iterates over a
copy of the recording dict closing the stream descriptor and the output
of every entry.  It never deletes a registry entry.  The one-shot
duration timer of run_record closes the read side of its own session and
then, when a timeout callback is wired (the Kwai timeout_callback which
forwards to the gui_timeout_callback of gui.py lines 851 to 895), the
callback stops the whole recorder. -/

/-- A recorder with its monitor tasks (by user id) and the shared
registry. -/
structure SysState where
  running : Bool
  tasks : List Nat
  registry : Registry
deriving DecidableEq, Repr

/-- Closing both members of one registered pair, as the loop at lines
282 to 288 does. -/
def closeBoth (h : Handle) : Handle := { fdClosed := true, outClosed := true }

/-- LiveRecorder.stop embedded from the source. -/
def LiveRecorder.stop (s : SysState) : SysState :=
  if !s.running then s
  else
    { running := false, tasks := [],
      registry := s.registry.map (fun kv => (kv.1, closeBoth kv.2)) }

/-- The timeout_handler body before the callback (lines 505 to 513):
close the stream descriptor of this session only. -/
def closeFdOf (url : String) (reg : Registry) : Registry :=
  reg.map (fun kv => if kv.1 = url then (kv.1, { kv.2 with fdClosed := true }) else kv)

/-- gui_timeout_callback of gui.py: on a duration timeout of one user it
stops the global recorder. -/
def gui_timeout_callback (uid : Nat) (s : SysState) : SysState :=
  LiveRecorder.stop s

/-- The armed duration timer of run_record: close the read side of this
session, then invoke the wired timeout callback chain when present. -/
def timeout_handler (url : String) (uid : Nat) (callbackWired : Bool)
    (s : SysState) : SysState :=
  let s1 := { s with registry := closeFdOf url s.registry }
  if callbackWired then gui_timeout_callback uid s1 else s1

/-- C4: evaluation at the failing input.  Two users are capturing (tasks
1 and 2, registry entries A and B).  When the duration timer of user 1
fires with the callback wired, the whole recorder stops: task 2 is
cancelled and the handles of entry B are closed, although only session A
timed out.  Without the callback the handler touches only the read side
of A, which is the behaviour the claim describes. -/
theorem timeout_global_teardown :
    timeout_handler ("A") 1 true
      { running := true, tasks := [1, 2],
        registry := [(("A"), Handle.mk false false), (("B"), Handle.mk false false)] }
      = { running := false, tasks := [],
          registry := [(("A"), Handle.mk true true), (("B"), Handle.mk true true)] }
    ∧ dlookup ("B")
        (timeout_handler ("A") 1 true
          { running := true, tasks := [1, 2],
            registry := [(("A"), Handle.mk false false),
              (("B"), Handle.mk false false)] }).registry
        = some (Handle.mk true true)
    ∧ timeout_handler ("A") 1 false
        { running := true, tasks := [1, 2],
          registry := [(("A"), Handle.mk false false), (("B"), Handle.mk false false)] }
        = { running := true, tasks := [1, 2],
            registry := [(("A"), Handle.mk true false), (("B"), Handle.mk false false)] } := by
  exact ⟨rfl, rfl, rfl⟩

/-- C5 counterexample: after stop on a running recorder with one
registered capture, the registry is not empty: the entry survives with
its handles closed. -/
theorem stop_registry_not_empty_cex :
    (LiveRecorder.stop
      { running := true, tasks := [],
        registry := [(("A"), Handle.mk false false)] }).registry
      = [(("A"), Handle.mk true true)]
    ∧ (LiveRecorder.stop
      { running := true, tasks := [],
        registry := [(("A"), Handle.mk false false)] }).registry ≠ [] := by
  exact ⟨rfl, by decide⟩

/-- C5 amended: after stop on a running recorder, the running flag is
cleared, every monitor task is cancelled and the task list emptied, and
every registered stream and output handle is closed; the registry keys
themselves are left in place (removal happens in the cleanup of each
capture call, not in stop). -/
theorem stop_spec (s : SysState) (hr : s.running = true) :
    (LiveRecorder.stop s).running = false
    ∧ (LiveRecorder.stop s).tasks = []
    ∧ (LiveRecorder.stop s).registry.map Prod.fst = s.registry.map Prod.fst
    ∧ ∀ kv ∈ (LiveRecorder.stop s).registry, kv.2 = Handle.mk true true := by
  have hs : LiveRecorder.stop s =
      { running := false, tasks := [],
        registry := s.registry.map (fun kv => (kv.1, closeBoth kv.2)) } := by
    simp [LiveRecorder.stop, hr]
  refine ⟨by rw [hs], by rw [hs], ?_, ?_⟩
  · rw [hs]
    simp [List.map_map, Function.comp]
  · rw [hs]
    intro kv hkv
    simp only [List.mem_map] at hkv
    obtain ⟨kv0, hm, heq⟩ := hkv
    rw [← heq]
    rfl

/-- C5 witness: stop evaluated on a concrete running recorder. -/
theorem stop_spec_witness :
    (LiveRecorder.stop
      { running := true, tasks := [7],
        registry := [(("A"), Handle.mk false false)] }).running = false
    ∧ (LiveRecorder.stop
      { running := true, tasks := [7],
        registry := [(("A"), Handle.mk false false)] }).tasks = [] :=
  have h := stop_spec
    { running := true, tasks := [7],
      registry := [(("A"), Handle.mk false false)] } rfl
  ⟨h.1, h.2.1⟩

/-! ## Spawning monitor tasks: start, run_loop, add_user
    (live_recorder.py lines 102 to 124 and 180 to 243)

The platform class is resolved with globals()[user platform].  The module
defines exactly the platform classes LiveRecorder and Kwai, so an
unknown name raises KeyError.  In the run_loop body the KeyError is
caught and logged and the loop continues with the next user; nothing is
reported to the caller of start.  add_user re-raises the caught
exception to its caller.  The codebase defines no ConfigurationError
class anywhere, which is why the embedded error type has no such
constructor. -/

/-- A user record as consumed by the spawn paths. -/
structure UserCfg where
  uid : Nat
  name : String
  platform : String
deriving DecidableEq, Repr

/-- The platform classes present in module globals. -/
def knownPlatforms : List String := ["LiveRecorder", "Kwai"]

/-- The Python exceptions that can cross these functions.  There is no
configuration error constructor because the source defines no such
class. -/
inductive PyErr
  | keyError (key : String)
deriving DecidableEq, Repr

/-- globals()[user platform]: the class when known, KeyError otherwise
(creating the recorder and task then yields the task for the user). -/
def spawnOne (u : UserCfg) : Except PyErr Nat :=
  if knownPlatforms.contains u.platform then Except.ok u.uid
  else Except.error (PyErr.keyError u.platform)

/-- What the run_loop user loop emits. -/
inductive SpawnEvent
  | taskCreated (uid : Nat)
  | keyErrorLogged (platform : String)
deriving DecidableEq, Repr

/-- One iteration of the user loop in run_loop: spawn, or catch the
KeyError, log it and continue. -/
def runLoopStep (acc : List Nat × List SpawnEvent) (u : UserCfg) :
    List Nat × List SpawnEvent :=
  match spawnOne u with
  | Except.ok t => (acc.1 ++ [t], acc.2 ++ [SpawnEvent.taskCreated u.uid])
  | Except.error (PyErr.keyError p) => (acc.1, acc.2 ++ [SpawnEvent.keyErrorLogged p])

/-- The user loop of run_loop: the created tasks and the log events. -/
def runLoopSpawn (users : List UserCfg) : List Nat × List SpawnEvent :=
  users.foldl runLoopStep ([], [])

/-- What run_loop raises to the caller of start: nothing, because every
per-user failure is caught inside the loop (lines 224 to 227). -/
def runLoopRaised (users : List UserCfg) : Option PyErr := none

/-- LiveRecorder.add_user: refuses when not running, otherwise spawns and
re-raises the caught exception on failure (line 124). -/
def LiveRecorder.add_user (running : Bool) (u : UserCfg) :
    Except PyErr (Option Nat) :=
  if !running then Except.ok none
  else
    match spawnOne u with
    | Except.ok t => Except.ok (some t)
    | Except.error e => Except.error e

theorem runLoopSpawn_go (users : List UserCfg) (acc : List Nat × List SpawnEvent) :
    users.foldl runLoopStep acc =
      (acc.1 ++ (users.filter (fun u => knownPlatforms.contains u.platform)).map UserCfg.uid,
       acc.2 ++ users.map (fun u =>
         if knownPlatforms.contains u.platform then SpawnEvent.taskCreated u.uid
         else SpawnEvent.keyErrorLogged u.platform)) := by
  induction users generalizing acc with
  | nil => simp
  | cons u t ih =>
    by_cases h : knownPlatforms.contains u.platform
    · rw [List.foldl_cons]
      have hm : u.platform ∈ knownPlatforms := by simpa using h
      have hstep : runLoopStep acc u =
          (acc.1 ++ [u.uid], acc.2 ++ [SpawnEvent.taskCreated u.uid]) := by
        simp [runLoopStep, spawnOne, hm]
      rw [hstep, ih]
      have hf : (u :: t).filter (fun u => knownPlatforms.contains u.platform)
          = u :: t.filter (fun u => knownPlatforms.contains u.platform) := by
        rw [List.filter_cons]
        exact if_pos h
      rw [hf]
      simp [hm]
    · have hb : knownPlatforms.contains u.platform = false := by
        cases hc : knownPlatforms.contains u.platform
        · rfl
        · exact absurd hc h
      rw [List.foldl_cons]
      have hnm : ¬ u.platform ∈ knownPlatforms := by simpa using hb
      have hstep : runLoopStep acc u =
          (acc.1, acc.2 ++ [SpawnEvent.keyErrorLogged u.platform]) := by
        simp [runLoopStep, spawnOne, hnm]
      rw [hstep, ih]
      have hf : (u :: t).filter (fun u => knownPlatforms.contains u.platform)
          = t.filter (fun u => knownPlatforms.contains u.platform) := by
        rw [List.filter_cons, hb]
        exact if_neg (by decide)
      rw [hf]
      simp [hnm]

/-- C8 counterexample: with one user on the unknown platform Foo and one
on Kwai, run_loop creates only the Kwai task, logs a KeyError and raises
nothing to the caller of start; add_user re-raises the plain KeyError.
The embedded error type mirrors the codebase, which defines no
ConfigurationError at all. -/
theorem unknown_platform_cex :
    runLoopSpawn [UserCfg.mk 1 ("a") ("Foo"), UserCfg.mk 2 ("b") ("Kwai")]
      = ([2], [SpawnEvent.keyErrorLogged ("Foo"), SpawnEvent.taskCreated 2])
    ∧ runLoopRaised [UserCfg.mk 1 ("a") ("Foo"), UserCfg.mk 2 ("b") ("Kwai")] = none
    ∧ LiveRecorder.add_user true (UserCfg.mk 1 ("a") ("Foo"))
        = Except.error (PyErr.keyError ("Foo")) := by
  refine ⟨by decide, rfl, rfl⟩

/-- C8 amended: a user whose platform names no known platform class
yields a logged KeyError: in the run_loop of start the error is caught
inside the loop, that user gets no task, nothing is reported to the
caller, and every other user with a known platform still gets a task;
add_user re-raises the KeyError to its caller.  No ConfigurationError
type exists in the codebase. -/
theorem unknown_platform_spec (users : List UserCfg) (u : UserCfg) :
    (runLoopSpawn users).1
      = (users.filter (fun v => knownPlatforms.contains v.platform)).map UserCfg.uid
    ∧ runLoopRaised users = none
    ∧ (knownPlatforms.contains u.platform = false →
        LiveRecorder.add_user true u = Except.error (PyErr.keyError u.platform)) := by
  refine ⟨?_, rfl, ?_⟩
  · show (users.foldl runLoopStep ([], [])).1 = _
    rw [runLoopSpawn_go]
    simp
  · intro hu
    have hnm : ¬ u.platform ∈ knownPlatforms := by simpa using hu
    simp [LiveRecorder.add_user, spawnOne, hnm]

/-- C8 witness: the amended spawn behaviour on a concrete two-user
configuration. -/
theorem unknown_platform_spec_witness :
    (runLoopSpawn [UserCfg.mk 1 ("a") ("Foo"), UserCfg.mk 2 ("b") ("Kwai")]).1
      = ([UserCfg.mk 1 ("a") ("Foo"), UserCfg.mk 2 ("b") ("Kwai")].filter
          (fun v => knownPlatforms.contains v.platform)).map UserCfg.uid
    ∧ LiveRecorder.add_user true (UserCfg.mk 3 ("c") ("Bar"))
        = Except.error (PyErr.keyError ("Bar")) :=
  have h1 := unknown_platform_spec
    [UserCfg.mk 1 ("a") ("Foo"), UserCfg.mk 2 ("b") ("Kwai")]
    (UserCfg.mk 3 ("c") ("Bar"))
  ⟨h1.1, h1.2.2 (by decide)⟩

/-! ## LiveRecorder.start (lines 180 to 243)

start returns immediately when already running (line 185), touching
nothing; otherwise it sets the running flag, creates a fresh event loop
and returns the run_loop function, whose user loop appends one task per
user to the task list. -/

/-- The orchestrator state observed by start: running flag, task list
and the count of event loops created so far. -/
structure RecState where
  running : Bool
  tasks : List Nat
  loopCount : Nat
deriving DecidableEq, Repr

/-- LiveRecorder.start embedded from the source; the boolean reports
whether a run_loop function was returned. -/
def LiveRecorder.start (s : RecState) : RecState × Bool :=
  if s.running then (s, false)
  else ({ running := true, tasks := s.tasks, loopCount := s.loopCount + 1 }, true)

/-- Executing the returned run_loop function: the user loop appends one
task per spawnable user to the task list. -/
def execRunLoop (users : List UserCfg) (s : RecState) : RecState :=
  { s with tasks := s.tasks ++ (runLoopSpawn users).1 }

/-- C9: start is idempotent.  From a fresh recorder, start returns a
run_loop; once it ran, the task list holds exactly one task per
configured user (in configuration order, no duplicates when the user ids
are distinct), and a second start call returns immediately: no new task,
no new event loop, the state unchanged. -/
theorem start_idempotent (users : List UserCfg) (s0 : RecState)
    (h0 : s0.running = false) (ht : s0.tasks = [])
    (hall : ∀ u ∈ users, knownPlatforms.contains u.platform = true)
    (hnd : (users.map UserCfg.uid).Nodup) :
    (LiveRecorder.start s0).2 = true
    ∧ LiveRecorder.start (execRunLoop users (LiveRecorder.start s0).1)
        = (execRunLoop users (LiveRecorder.start s0).1, false)
    ∧ (execRunLoop users (LiveRecorder.start s0).1).tasks = users.map UserCfg.uid
    ∧ (execRunLoop users (LiveRecorder.start s0).1).tasks.Nodup := by
  have hs1 : LiveRecorder.start s0 =
      ({ running := true, tasks := s0.tasks, loopCount := s0.loopCount + 1 }, true) := by
    simp [LiveRecorder.start, h0]
  have hfil : users.filter (fun v => knownPlatforms.contains v.platform) = users :=
    List.filter_eq_self.mpr hall
  have htasks : (execRunLoop users (LiveRecorder.start s0).1).tasks
      = users.map UserCfg.uid := by
    rw [hs1]
    show s0.tasks ++ (runLoopSpawn users).1 = users.map UserCfg.uid
    have hsp : (runLoopSpawn users).1 = users.map UserCfg.uid := by
      show (users.foldl runLoopStep ([], [])).1 = _
      rw [runLoopSpawn_go, hfil]
      simp
    rw [ht, hsp]
    simp
  refine ⟨by rw [hs1], ?_, htasks, by rw [htasks]; exact hnd⟩
  set s2 := execRunLoop users (LiveRecorder.start s0).1 with hs2
  have hrun : s2.running = true := by
    rw [hs2, hs1]
    rfl
  simp [LiveRecorder.start, hrun]

/-- C9 witness: start and run_loop on a fresh recorder with two Kwai
users, then a second start call. -/
theorem start_idempotent_witness :
    (LiveRecorder.start (RecState.mk false [] 0)).2 = true
    ∧ LiveRecorder.start
        (execRunLoop [UserCfg.mk 1 ("a") ("Kwai"), UserCfg.mk 2 ("b") ("Kwai")]
          (LiveRecorder.start (RecState.mk false [] 0)).1)
        = (execRunLoop [UserCfg.mk 1 ("a") ("Kwai"), UserCfg.mk 2 ("b") ("Kwai")]
            (LiveRecorder.start (RecState.mk false [] 0)).1, false)
    ∧ (execRunLoop [UserCfg.mk 1 ("a") ("Kwai"), UserCfg.mk 2 ("b") ("Kwai")]
        (LiveRecorder.start (RecState.mk false [] 0)).1).tasks
        = [UserCfg.mk 1 ("a") ("Kwai"), UserCfg.mk 2 ("b") ("Kwai")].map UserCfg.uid :=
  have h := start_idempotent
    [UserCfg.mk 1 ("a") ("Kwai"), UserCfg.mk 2 ("b") ("Kwai")]
    (RecState.mk false [] 0) rfl rfl (by decide) (by decide)
  ⟨h.1, h.2.1, h.2.2.1⟩

/-! ## The cooldown wait of _record_task (lines 340 to 346)

for i in range(interval): the stop flags self.running and task_running
are tested at the top of each iteration, before the one second sleep, so
the loop performs at most interval unit sleeps and exits at the first
test that observes a stop. -/

/-- The wait loop: the first argument is the remaining iteration count,
the second the number of unit sleeps already performed, the third the
stop test indexed by the number of sleeps done.  The result is the total
number of unit sleeps performed. -/
def waitLoopAux : Nat → Nat → (Nat → Bool) → Nat
  | 0, done, _ => done
  | n + 1, done, stopF => if stopF done then done else waitLoopAux n (done + 1) stopF

/-- The cooldown wait with both stop flags as read before the sleep of
each iteration. -/
def cooldownWait (interval : Nat) (running taskRunning : Nat → Bool) : Nat :=
  waitLoopAux interval 0 (fun i => !(running i) || !(taskRunning i))

theorem waitLoopAux_le (n done : Nat) (stopF : Nat → Bool) :
    waitLoopAux n done stopF ≤ done + n := by
  induction n generalizing done with
  | zero => simp [waitLoopAux]
  | succ m ih =>
    rw [waitLoopAux]
    by_cases h : stopF done
    · simp [h]
    · rw [if_neg h]
      calc waitLoopAux m (done + 1) stopF ≤ done + 1 + m := ih (done + 1)
        _ = done + (m + 1) := by omega

theorem waitLoopAux_stop (n done r : Nat) (stopF : Nat → Bool)
    (hr : stopF r = true) (hd : done ≤ r) :
    waitLoopAux n done stopF ≤ r := by
  induction n generalizing done with
  | zero => simpa [waitLoopAux] using hd
  | succ m ih =>
    rw [waitLoopAux]
    by_cases h : stopF done
    · simpa [h] using hd
    · rw [if_neg h]
      have hne : done ≠ r := by
        intro he
        rw [he, hr] at h
        exact h rfl
      exact ih (done + 1) (by omega)

/-- C6: the cooldown is interval iterations of a unit sleep with the
stop flags tested before each sleep.  When no stop is ever requested the
loop performs exactly interval unit sleeps, and when both flags report a
stop from test index r on (a stop requested during sleep r minus one, or
earlier, is observed at test r at the latest) the loop performs at most
min interval r unit sleeps, so at most one unit sleep elapses after the
request: the task never waits out the remaining interval. -/
theorem cooldown_cancellation (interval : Nat) (running taskRunning : Nat → Bool) :
    ((∀ i, running i = true ∧ taskRunning i = true) →
      cooldownWait interval running taskRunning = interval)
    ∧ (∀ r, (∀ i, r ≤ i → running i = false ∨ taskRunning i = false) →
        cooldownWait interval running taskRunning ≤ min interval r) := by
  constructor
  · intro hall
    show waitLoopAux interval 0 _ = interval
    have hz : ∀ n done, waitLoopAux n done
        (fun i => !(running i) || !(taskRunning i)) = done + n := by
      intro n
      induction n with
      | zero => intro d; simp [waitLoopAux]
      | succ m ih =>
        intro d
        rw [waitLoopAux]
        have hd := hall d
        rw [if_neg (by simp [hd.1, hd.2])]
        rw [ih (d + 1)]
        omega
    rw [hz interval 0]
    omega
  · intro r hstop
    have hr : (fun i => !(running i) || !(taskRunning i)) r = true := by
      rcases hstop r (le_refl r) with h | h <;> simp [h]
    refine le_min ?_ ?_
    · have := waitLoopAux_le interval 0 (fun i => !(running i) || !(taskRunning i))
      simpa using this
    · exact waitLoopAux_stop interval 0 r _ hr (Nat.zero_le r)

/-- C6 witness: a five second cooldown with a stop requested so that it
is observed from test index 3 performs at most three unit sleeps. -/
theorem cooldown_cancellation_witness :
    cooldownWait 5 (fun i => decide (i < 3)) (fun i => true) ≤ min 5 3
    ∧ cooldownWait 7 (fun i => true) (fun i => true) = 7 :=
  have h1 := cooldown_cancellation 5 (fun i => decide (i < 3)) (fun i => true)
  have h2 := cooldown_cancellation 7 (fun i => true) (fun i => true)
  ⟨h1.2 3 (fun i hi => Or.inl (decide_eq_false (by omega))),
    h2.1 (fun i => ⟨rfl, rfl⟩)⟩

/-! ## The monitor loop body of _record_task (lines 313 to 355)

Each iteration runs the probe and capture cycle; a CancelledError clears
the per-task flag and breaks out of the loop; every other exception is
caught by the outer handler, logged, followed by a fixed five second
backoff sleep, and the loop continues with the next iteration. -/

/-- How one iteration of the while body ends. -/
inductive BodyOutcome
  | ok
  | err
  | cancelled
deriving DecidableEq, Repr

/-- The observable actions of the task loop. -/
inductive TaskAction
  | iterate
  | logError
  | backoff (secs : Nat)
  | exitLoop
deriving DecidableEq, Repr

/-- The monitor loop of _record_task over a schedule of body outcomes:
ok continues, err logs and sleeps five seconds then continues, cancelled
clears the task flag and breaks. -/
def recordTaskTrace : List BodyOutcome → List TaskAction
  | [] => []
  | BodyOutcome.ok :: rest => TaskAction.iterate :: recordTaskTrace rest
  | BodyOutcome.err :: rest =>
      TaskAction.iterate :: TaskAction.logError :: TaskAction.backoff 5 ::
        recordTaskTrace rest
  | BodyOutcome.cancelled :: _ => [TaskAction.iterate, TaskAction.exitLoop]

/-- The traces of a family of monitor tasks, one per user id; each task
consumes only its own outcome schedule. -/
def tasksTraces (outs : Nat → List BodyOutcome) : Nat → List TaskAction :=
  fun uid => recordTaskTrace (outs uid)

/-- C7: an iteration that raises a non-cancellation exception makes the
task log the error, back off five seconds and continue with the rest of
its schedule: the loop never terminates on such an exception.  And
replacing the schedule of one task (for example injecting faults) leaves
the trace of every other task unchanged: one user never affects
another. -/
theorem record_task_resilient (pre rest : List BodyOutcome)
    (outs : Nat → List BodyOutcome) (i : Nat) (newOuts : List BodyOutcome) (j : Nat) :
    (BodyOutcome.cancelled ∉ pre →
      recordTaskTrace (pre ++ BodyOutcome.err :: rest)
        = recordTaskTrace pre ++ TaskAction.iterate :: TaskAction.logError ::
            TaskAction.backoff 5 :: recordTaskTrace rest)
    ∧ (j ≠ i → tasksTraces (Function.update outs i newOuts) j = tasksTraces outs j) := by
  constructor
  · intro hnc
    induction pre with
    | nil => rfl
    | cons o t ih =>
      have hnc2 : BodyOutcome.cancelled ∉ t := fun hm => hnc (List.mem_cons_of_mem o hm)
      have hno : o ≠ BodyOutcome.cancelled := fun he => hnc (he ▸ List.mem_cons_self o t)
      cases o with
      | ok => simp only [List.cons_append, recordTaskTrace, List.append_eq, ih hnc2]
      | err => simp only [List.cons_append, recordTaskTrace, List.append_eq, ih hnc2]
      | cancelled => exact absurd rfl hno
  · intro hij
    show recordTaskTrace (Function.update outs i newOuts j) = recordTaskTrace (outs j)
    rw [Function.update_noteq hij]

/-- C7 witness: a concrete schedule with one fault, and task 1 unchanged
when the schedule of task 0 is replaced. -/
theorem record_task_resilient_witness :
    recordTaskTrace [BodyOutcome.ok, BodyOutcome.err, BodyOutcome.ok]
      = recordTaskTrace [BodyOutcome.ok] ++ TaskAction.iterate :: TaskAction.logError ::
          TaskAction.backoff 5 :: recordTaskTrace [BodyOutcome.ok]
    ∧ tasksTraces (Function.update (fun _ => ([] : List BodyOutcome)) 0
        [BodyOutcome.err]) 1 = tasksTraces (fun _ => []) 1 :=
  have h := record_task_resilient [BodyOutcome.ok] [BodyOutcome.ok]
    (fun _ => []) 0 [BodyOutcome.err] 1
  ⟨h.1 (by decide), h.2 (by decide)⟩
